import Mathlib

/-!
Shallow embedding of `mongoc-stream-tls-openssl-bio.c`: the adapter that
bridges the mongoc transport-stream abstraction to the OpenSSL BIO plugin
interface.  Pointers are modelled as `Option Nat` (addresses, `none` = NULL),
machine integers as `Int`, and the two heaps of peer objects as total maps
from addresses.  The transport stream and the errno classifier are external
collaborators, so they appear as an oracle environment; each operation also
returns the list of transport invocations it performed, so that claims about
which call was made (arguments, errno at call time, number of calls) are
statable.
-/

namespace MongocOpensslShim

/-- Modelled from the spec: the plugin handle's retry-state bitmask
(`none` / retry-read / retry-write).  The OpenSSL flag macros
(`BIO_clear_retry_flags`, `BIO_set_retry_read`, `BIO_set_retry_write`)
are not part of this repository; the spec describes `flags` as exactly
this retry-state information, so it is modelled as the pair of the two
retry bits. -/
structure BioFlags where
  retryRead : Bool
  retryWrite : Bool
deriving DecidableEq, Repr

/-- The BIO plugin handle (struct `BIO` as used by this file): `init`
and `num` are C ints, `ptr` is the backref to the owning
`mongoc_stream_tls_t` (NULL = `none`), `flags` the retry bitmask. -/
structure BIOHandle where
  init : Int
  num : Int
  ptr : Option Nat
  flags : BioFlags
deriving DecidableEq, Repr

/-- Modelled from the spec: the slice of `mongoc_stream_tls_openssl_t`
this file touches — its reference `bio` back to the bound plugin handle. -/
structure OpensslCtx where
  bio : Option Nat
deriving DecidableEq, Repr

/-- Modelled from the spec: the slice of `mongoc_stream_tls_t` this file
reads — the base transport stream (abstract address), the configured
per-operation timeout in milliseconds, and the address of the
`mongoc_stream_tls_openssl_t` it owns. -/
structure StreamTls where
  base_stream : Nat
  timeout_msec : Int
  ctx : Nat
deriving DecidableEq, Repr

/-- The ambient world: the process-wide `errno` indicator and the two
heaps of peer objects, as total maps from (non-NULL) addresses. -/
structure World where
  errno : Nat
  tlsHeap : Nat → StreamTls
  osslHeap : Nat → OpensslCtx

/-- A scatter/gather segment (`mongoc_iovec_t`): base pointer and length. -/
structure Iovec where
  iov_base : Nat
  iov_len : Int
deriving DecidableEq, Repr

/-- One invocation of the external transport, as recorded in the trace:
either a blocking read (`mongoc_stream_read` with stream, destination
buffer, length, the zero fourth argument, timeout) or a vectored write
(`mongoc_stream_writev` with stream, segment list, segment count,
timeout).  `errnoAtCall` is the value of the ambient indicator at the
moment the transport is entered. -/
inductive TCall where
  | sread (stream : Nat) (buf : Nat) (len : Int) (extra : Int)
      (timeoutMsec : Int) (errnoAtCall : Nat)
  | swritev (stream : Nat) (iovs : List Iovec) (iovcnt : Nat)
      (timeoutMsec : Int) (errnoAtCall : Nat)
deriving DecidableEq, Repr

/-- Modelled from the spec: the external collaborators.  `isAgain` is the
`MONGOC_ERRNO_IS_AGAIN` classifier (transient/interruptible vs fatal) on
an errno value; `streamRead` and `streamWritev` give, for each possible
transport call (including the ambient errno on entry), the returned byte
count (may be negative) and the ambient errno observed afterwards. -/
structure Env where
  isAgain : Nat → Bool
  streamRead : Nat → Nat → Int → Int → Int → Nat → Int × Nat
  streamWritev : Nat → List Iovec → Nat → Int → Nat → Int × Nat

/-- Result of one adapter operation: the world afterwards, the handle
afterwards, the returned count/status, and the transport calls made. -/
structure OpResult where
  world : World
  handle : BIOHandle
  ret : Int
  calls : List TCall

/-- Modelled from the spec: OpenSSL's `BIO_clear_retry_flags` — clear
both retry bits of the handle's flags. -/
def BIO_clear_retry_flags (b : BIOHandle) : BIOHandle :=
  { b with flags := ⟨false, false⟩ }

/-- Modelled from the spec: OpenSSL's `BIO_set_retry_read` — set the
retry-read bit of the handle's flags. -/
def BIO_set_retry_read (b : BIOHandle) : BIOHandle :=
  { b with flags := { b.flags with retryRead := true } }

/-- Modelled from the spec: OpenSSL's `BIO_set_retry_write` — set the
retry-write bit of the handle's flags. -/
def BIO_set_retry_write (b : BIOHandle) : BIOHandle :=
  { b with flags := { b.flags with retryWrite := true } }

/-- Modelled from the spec: OpenSSL's `BIO_CTRL_FLUSH` command code. -/
def BIO_CTRL_FLUSH : Int := 11

/-- Embedding of `mongoc_stream_tls_openssl_bio_create`: reset the handle
to baseline (`init = 1`, `num = 0`, `ptr = NULL`, `flags = 0`), return 1. -/
def mongoc_stream_tls_openssl_bio_create (b : BIOHandle) : BIOHandle × Int :=
  (({ init := 1, num := 0, ptr := none, flags := ⟨false, false⟩ } : BIOHandle), 1)

/-- Embedding of `mongoc_stream_tls_openssl_bio_destroy`: if the backref
is NULL return -1 and change nothing; otherwise null the backref, clear
`init` and `flags`, null the openssl context's own `bio` reference, and
return 1. -/
def mongoc_stream_tls_openssl_bio_destroy (w : World) (b : BIOHandle) : OpResult :=
  match b.ptr with
  | none => ⟨w, b, -1, []⟩
  | some p =>
    let tls := w.tlsHeap p
    let b1 : BIOHandle := { b with ptr := none, init := 0, flags := ⟨false, false⟩ }
    let w1 : World :=
      { w with osslHeap := fun a =>
          if a = tls.ctx then { w.osslHeap a with bio := none } else w.osslHeap a }
    ⟨w1, b1, 1, []⟩

/-- Embedding of `mongoc_stream_tls_openssl_bio_read`: if unbound return
-1; otherwise clear errno, call `mongoc_stream_read (base_stream, buf,
len, 0, timeout_msec)`, clear the retry flags, set retry-read when the
count is ≤ 0 and the ambient errno is classified transient, and return
the count. -/
def mongoc_stream_tls_openssl_bio_read (env : Env) (w : World) (b : BIOHandle)
    (buf : Nat) (len : Int) : OpResult :=
  match b.ptr with
  | none => ⟨w, b, -1, []⟩
  | some p =>
    let tls := w.tlsHeap p
    let w1 : World := { w with errno := 0 }
    let r := env.streamRead tls.base_stream buf len 0 tls.timeout_msec w1.errno
    let w2 : World := { w1 with errno := r.2 }
    let b1 := BIO_clear_retry_flags b
    let b2 := if r.1 ≤ 0 ∧ env.isAgain r.2 = true then BIO_set_retry_read b1 else b1
    ⟨w2, b2, r.1, [TCall.sread tls.base_stream buf len 0 tls.timeout_msec w1.errno]⟩

/-- Embedding of `mongoc_stream_tls_openssl_bio_write`: if unbound return
-1; otherwise build the single iovec `(buf, len)`, clear errno, call
`mongoc_stream_writev (base_stream, &iov, 1, timeout_msec)`, clear the
retry flags, set retry-write when the count is ≤ 0 and the ambient errno
is classified transient, and return the count. -/
def mongoc_stream_tls_openssl_bio_write (env : Env) (w : World) (b : BIOHandle)
    (buf : Nat) (len : Int) : OpResult :=
  match b.ptr with
  | none => ⟨w, b, -1, []⟩
  | some p =>
    let tls := w.tlsHeap p
    let iov : Iovec := ⟨buf, len⟩
    let w1 : World := { w with errno := 0 }
    let r := env.streamWritev tls.base_stream [iov] 1 tls.timeout_msec w1.errno
    let w2 : World := { w1 with errno := r.2 }
    let b1 := BIO_clear_retry_flags b
    let b2 := if r.1 ≤ 0 ∧ env.isAgain r.2 = true then BIO_set_retry_write b1 else b1
    ⟨w2, b2, r.1, [TCall.swritev tls.base_stream [iov] 1 tls.timeout_msec w1.errno]⟩

/-- Embedding of `mongoc_stream_tls_openssl_bio_ctrl`: BIO_CTRL_FLUSH
returns 1, every other command returns 0; nothing is touched. -/
def mongoc_stream_tls_openssl_bio_ctrl (w : World) (b : BIOHandle) (cmd : Int)
    (num : Int) (p : Option Nat) : OpResult :=
  if cmd = BIO_CTRL_FLUSH then ⟨w, b, 1, []⟩ else ⟨w, b, 0, []⟩

/-- Embedding of `mongoc_stream_tls_openssl_bio_gets`: unsupported,
returns -1 always. -/
def mongoc_stream_tls_openssl_bio_gets (b : BIOHandle) (buf : Nat) (len : Int) : Int :=
  -1

/-- C `strlen` on a byte list: number of bytes before the first NUL. -/
def strlen (s : List Nat) : Nat :=
  (s.takeWhile (fun c => c ≠ 0)).length

/-- Embedding of `mongoc_stream_tls_openssl_bio_puts`: forward to the
write callback with the string's address and `strlen` of its bytes. -/
def mongoc_stream_tls_openssl_bio_puts (env : Env) (w : World) (b : BIOHandle)
    (str : Nat) (strBytes : List Nat) : OpResult :=
  mongoc_stream_tls_openssl_bio_write env w b str (Int.ofNat (strlen strBytes))

/-! Concrete sample environment, world and handles, used by the witnesses. -/

/-- Sample oracle: errno 11 is the only transient errno; a read returns
count 0 with errno 11 (transient), a vectored write returns -1 with
errno 4 (not transient here). -/
def envW : Env :=
  ⟨fun e => e == 11, fun _ _ _ _ _ _ => (0, 11), fun _ _ _ _ _ => (-1, 4)⟩

/-- Sample world: errno 5; every tls address maps to a context with base
stream 3, timeout 50 ms, openssl context at address 7; every openssl
context currently references handle address 2. -/
def wW : World :=
  ⟨5, fun _ => ⟨3, 50, 7⟩, fun _ => ⟨some 2⟩⟩

/-- Sample bound handle: backref to tls address 4, retry-write set. -/
def bB : BIOHandle := ⟨1, 0, some 4, ⟨false, true⟩⟩

/-- Sample unbound handle with a stale retry-read flag. -/
def bU : BIOHandle := ⟨1, 0, none, ⟨true, false⟩⟩

/-- C1: on a bound handle, read records exactly one transport read call —
issued with the ambient indicator cleared to 0, the context's base
stream, the given buffer and length, a zero fourth argument and the
context's timeout — returns the transport's count unchanged, leaves
retry-write clear, and sets retry-read iff the count is ≤ 0 and the
errno observed afterwards is classified transient. -/
theorem read_bound_transport_and_retry (env : Env) (w : World) (b : BIOHandle)
    (buf : Nat) (len : Int) (p : Nat) (hb : b.ptr = some p) :
    (mongoc_stream_tls_openssl_bio_read env w b buf len).calls =
      [TCall.sread (w.tlsHeap p).base_stream buf len 0 (w.tlsHeap p).timeout_msec 0] ∧
    (mongoc_stream_tls_openssl_bio_read env w b buf len).ret =
      (env.streamRead (w.tlsHeap p).base_stream buf len 0 (w.tlsHeap p).timeout_msec 0).1 ∧
    (mongoc_stream_tls_openssl_bio_read env w b buf len).handle.flags.retryWrite = false ∧
    ((mongoc_stream_tls_openssl_bio_read env w b buf len).handle.flags.retryRead = true ↔
      ((env.streamRead (w.tlsHeap p).base_stream buf len 0 (w.tlsHeap p).timeout_msec 0).1 ≤ 0 ∧
        env.isAgain
          (env.streamRead (w.tlsHeap p).base_stream buf len 0 (w.tlsHeap p).timeout_msec 0).2
          = true)) := by
  obtain ⟨bi, bn, bp, bf⟩ := b
  simp only at hb
  subst hb
  refine ⟨rfl, rfl, ?_, ?_⟩
  · simp only [mongoc_stream_tls_openssl_bio_read, BIO_clear_retry_flags, BIO_set_retry_read]
    split <;> rfl
  · simp only [mongoc_stream_tls_openssl_bio_read, BIO_clear_retry_flags, BIO_set_retry_read]
    split
    next h => simpa using h
    next h => simpa using h

/-- Witness for C1 at the sample input: the bound handle, buffer 9,
length 10; the oracle answers (0, errno 11), errno 11 is transient, so
retry-read is set. -/
theorem read_bound_transport_and_retry_witness :
    bB.ptr = some 4 ∧
    ((mongoc_stream_tls_openssl_bio_read envW wW bB 9 10).calls =
      [TCall.sread (wW.tlsHeap 4).base_stream 9 10 0 (wW.tlsHeap 4).timeout_msec 0] ∧
    (mongoc_stream_tls_openssl_bio_read envW wW bB 9 10).ret =
      (envW.streamRead (wW.tlsHeap 4).base_stream 9 10 0 (wW.tlsHeap 4).timeout_msec 0).1 ∧
    (mongoc_stream_tls_openssl_bio_read envW wW bB 9 10).handle.flags.retryWrite = false ∧
    ((mongoc_stream_tls_openssl_bio_read envW wW bB 9 10).handle.flags.retryRead = true ↔
      ((envW.streamRead (wW.tlsHeap 4).base_stream 9 10 0 (wW.tlsHeap 4).timeout_msec 0).1 ≤ 0 ∧
        envW.isAgain
          (envW.streamRead (wW.tlsHeap 4).base_stream 9 10 0 (wW.tlsHeap 4).timeout_msec 0).2
          = true))) :=
  ⟨rfl, read_bound_transport_and_retry envW wW bB 9 10 4 rfl⟩

/-- C2: on a bound handle, write records exactly one transport vectored
write call — issued with the ambient indicator cleared to 0, a single
segment holding exactly the given buffer and length, segment count 1 and
the context's timeout — returns the transport's count verbatim, leaves
retry-read clear, and sets retry-write iff the count is ≤ 0 and the
errno observed afterwards is classified transient. -/
theorem write_bound_transport_and_retry (env : Env) (w : World) (b : BIOHandle)
    (buf : Nat) (len : Int) (p : Nat) (hb : b.ptr = some p) :
    (mongoc_stream_tls_openssl_bio_write env w b buf len).calls =
      [TCall.swritev (w.tlsHeap p).base_stream [⟨buf, len⟩] 1 (w.tlsHeap p).timeout_msec 0] ∧
    (mongoc_stream_tls_openssl_bio_write env w b buf len).ret =
      (env.streamWritev (w.tlsHeap p).base_stream [⟨buf, len⟩] 1 (w.tlsHeap p).timeout_msec 0).1 ∧
    (mongoc_stream_tls_openssl_bio_write env w b buf len).handle.flags.retryRead = false ∧
    ((mongoc_stream_tls_openssl_bio_write env w b buf len).handle.flags.retryWrite = true ↔
      ((env.streamWritev (w.tlsHeap p).base_stream [⟨buf, len⟩] 1 (w.tlsHeap p).timeout_msec 0).1
          ≤ 0 ∧
        env.isAgain
          (env.streamWritev (w.tlsHeap p).base_stream [⟨buf, len⟩] 1 (w.tlsHeap p).timeout_msec 0).2
          = true)) := by
  obtain ⟨bi, bn, bp, bf⟩ := b
  simp only at hb
  subst hb
  refine ⟨rfl, rfl, ?_, ?_⟩
  · simp only [mongoc_stream_tls_openssl_bio_write, BIO_clear_retry_flags, BIO_set_retry_write]
    split <;> rfl
  · simp only [mongoc_stream_tls_openssl_bio_write, BIO_clear_retry_flags, BIO_set_retry_write]
    split
    next h => simpa using h
    next h => simpa using h

/-- Witness for C2 at the sample input: the bound handle, buffer 9,
length 100; the oracle answers (-1, errno 4), errno 4 is not transient,
so no retry flag is set. -/
theorem write_bound_transport_and_retry_witness :
    bB.ptr = some 4 ∧
    ((mongoc_stream_tls_openssl_bio_write envW wW bB 9 100).calls =
      [TCall.swritev (wW.tlsHeap 4).base_stream [⟨9, 100⟩] 1 (wW.tlsHeap 4).timeout_msec 0] ∧
    (mongoc_stream_tls_openssl_bio_write envW wW bB 9 100).ret =
      (envW.streamWritev (wW.tlsHeap 4).base_stream [⟨9, 100⟩] 1 (wW.tlsHeap 4).timeout_msec 0).1 ∧
    (mongoc_stream_tls_openssl_bio_write envW wW bB 9 100).handle.flags.retryRead = false ∧
    ((mongoc_stream_tls_openssl_bio_write envW wW bB 9 100).handle.flags.retryWrite = true ↔
      ((envW.streamWritev (wW.tlsHeap 4).base_stream [⟨9, 100⟩] 1 (wW.tlsHeap 4).timeout_msec 0).1
          ≤ 0 ∧
        envW.isAgain
          (envW.streamWritev (wW.tlsHeap 4).base_stream [⟨9, 100⟩] 1 (wW.tlsHeap 4).timeout_msec 0).2
          = true))) :=
  ⟨rfl, write_bound_transport_and_retry envW wW bB 9 100 4 rfl⟩

/-- C3: destroy on a bound handle returns 1 (success), leaves the handle
with backref none, init 0 and no flags, and nulls the bound openssl
context's own `bio` reference — both sides of the mutual binding are
cleared in the one call. -/
theorem destroy_bound_clears_both_sides (w : World) (b : BIOHandle) (p : Nat)
    (hb : b.ptr = some p) :
    (mongoc_stream_tls_openssl_bio_destroy w b).ret = 1 ∧
    (mongoc_stream_tls_openssl_bio_destroy w b).handle.ptr = none ∧
    (mongoc_stream_tls_openssl_bio_destroy w b).handle.init = 0 ∧
    (mongoc_stream_tls_openssl_bio_destroy w b).handle.flags = ⟨false, false⟩ ∧
    ((mongoc_stream_tls_openssl_bio_destroy w b).world.osslHeap (w.tlsHeap p).ctx).bio
      = none := by
  obtain ⟨bi, bn, bp, bf⟩ := b
  simp only at hb
  subst hb
  refine ⟨rfl, rfl, rfl, rfl, ?_⟩
  simp [mongoc_stream_tls_openssl_bio_destroy]

/-- Witness for C3 at the sample input: the bound handle in the sample
world; afterwards the openssl context at address 7 references no handle. -/
theorem destroy_bound_clears_both_sides_witness :
    bB.ptr = some 4 ∧
    ((mongoc_stream_tls_openssl_bio_destroy wW bB).ret = 1 ∧
    (mongoc_stream_tls_openssl_bio_destroy wW bB).handle.ptr = none ∧
    (mongoc_stream_tls_openssl_bio_destroy wW bB).handle.init = 0 ∧
    (mongoc_stream_tls_openssl_bio_destroy wW bB).handle.flags = ⟨false, false⟩ ∧
    ((mongoc_stream_tls_openssl_bio_destroy wW bB).world.osslHeap (wW.tlsHeap 4).ctx).bio
      = none) :=
  ⟨rfl, destroy_bound_clears_both_sides wW bB 4 rfl⟩

/-- C4: destroy on an unbound handle returns -1 and mutates nothing —
the result is the untouched world and the untouched handle, with no
transport call. -/
theorem destroy_unbound_is_failure_noop (w : World) (b : BIOHandle)
    (hb : b.ptr = none) :
    mongoc_stream_tls_openssl_bio_destroy w b = ⟨w, b, -1, []⟩ := by
  obtain ⟨bi, bn, bp, bf⟩ := b
  simp only at hb
  subst hb
  rfl

/-- Witness for C4 at the sample input: the unbound handle with a stale
retry-read flag; destroy fails and leaves everything as it was. -/
theorem destroy_unbound_is_failure_noop_witness :
    bU.ptr = none ∧
    mongoc_stream_tls_openssl_bio_destroy wW bU = ⟨wW, bU, -1, []⟩ :=
  ⟨rfl, destroy_unbound_is_failure_noop wW bU rfl⟩

/-- C5: read and write on an unbound handle return -1 immediately, make
no transport call, and leave the world and the handle (including any
previously set retry flags) unchanged. -/
theorem rw_unbound_fail_no_transport (env : Env) (w : World) (b : BIOHandle)
    (buf : Nat) (len : Int) (hb : b.ptr = none) :
    mongoc_stream_tls_openssl_bio_read env w b buf len = ⟨w, b, -1, []⟩ ∧
    mongoc_stream_tls_openssl_bio_write env w b buf len = ⟨w, b, -1, []⟩ := by
  obtain ⟨bi, bn, bp, bf⟩ := b
  simp only at hb
  subst hb
  exact ⟨rfl, rfl⟩

/-- Witness for C5 at the sample input: the unbound handle (stale
retry-read flag set); both operations fail with -1 and touch nothing. -/
theorem rw_unbound_fail_no_transport_witness :
    bU.ptr = none ∧
    (mongoc_stream_tls_openssl_bio_read envW wW bU 9 10 = ⟨wW, bU, -1, []⟩ ∧
    mongoc_stream_tls_openssl_bio_write envW wW bU 9 10 = ⟨wW, bU, -1, []⟩) :=
  ⟨rfl, rw_unbound_fail_no_transport envW wW bU 9 10 rfl⟩

/-- C6: create succeeds (returns 1) and leaves any handle in the
baseline state init 1, num 0, backref none, flags none, irrespective of
its prior contents. -/
theorem create_resets_to_baseline (b : BIOHandle) :
    mongoc_stream_tls_openssl_bio_create b =
      (({ init := 1, num := 0, ptr := none, flags := ⟨false, false⟩ } : BIOHandle), 1) :=
  rfl

/-- C7: ctrl leaves the world and the handle untouched, makes no
transport call, and returns 1 exactly on the flush command and 0 on
every other command, for every handle state and every argument. -/
theorem ctrl_flush_only_no_state_change (w : World) (b : BIOHandle) (cmd : Int)
    (num : Int) (p : Option Nat) :
    (mongoc_stream_tls_openssl_bio_ctrl w b cmd num p).world = w ∧
    (mongoc_stream_tls_openssl_bio_ctrl w b cmd num p).handle = b ∧
    (mongoc_stream_tls_openssl_bio_ctrl w b cmd num p).calls = [] ∧
    (mongoc_stream_tls_openssl_bio_ctrl w b cmd num p).ret =
      (if cmd = BIO_CTRL_FLUSH then 1 else 0) := by
  unfold mongoc_stream_tls_openssl_bio_ctrl
  split <;> exact ⟨rfl, rfl, rfl, rfl⟩

/-- C8: puts on a NUL-terminated string is the very same operation as
write of that string's address with its strlen — identical result,
identical resulting handle and flags, identical single transport call. -/
theorem puts_equals_write_of_strlen (env : Env) (w : World) (b : BIOHandle)
    (str : Nat) (strBytes : List Nat) (hnul : (0 : Nat) ∈ strBytes) :
    mongoc_stream_tls_openssl_bio_puts env w b str strBytes =
      mongoc_stream_tls_openssl_bio_write env w b str (Int.ofNat (strlen strBytes)) :=
  rfl

/-- Witness for C8 at the sample input: the bytes of "abc" followed by
the NUL terminator; puts coincides with write of length strlen = 3. -/
theorem puts_equals_write_of_strlen_witness :
    (0 : Nat) ∈ [97, 98, 99, 0] ∧
    mongoc_stream_tls_openssl_bio_puts envW wW bB 9 [97, 98, 99, 0] =
      mongoc_stream_tls_openssl_bio_write envW wW bB 9 (Int.ofNat (strlen [97, 98, 99, 0])) :=
  ⟨by decide, puts_equals_write_of_strlen envW wW bB 9 [97, 98, 99, 0] (by decide)⟩

/-- C9: every read or write call, bound or unbound, leaves the handle's
backref, init and num fields exactly as before; only the flags field of
the handle can change. -/
theorem rw_frame_only_flags (env : Env) (w : World) (b : BIOHandle)
    (buf : Nat) (len : Int) :
    (mongoc_stream_tls_openssl_bio_read env w b buf len).handle.ptr = b.ptr ∧
    (mongoc_stream_tls_openssl_bio_read env w b buf len).handle.init = b.init ∧
    (mongoc_stream_tls_openssl_bio_read env w b buf len).handle.num = b.num ∧
    (mongoc_stream_tls_openssl_bio_write env w b buf len).handle.ptr = b.ptr ∧
    (mongoc_stream_tls_openssl_bio_write env w b buf len).handle.init = b.init ∧
    (mongoc_stream_tls_openssl_bio_write env w b buf len).handle.num = b.num := by
  obtain ⟨bi, bn, bp, bf⟩ := b
  cases bp with
  | none => exact ⟨rfl, rfl, rfl, rfl, rfl, rfl⟩
  | some p =>
    refine ⟨?_, ?_, ?_, ?_, ?_, ?_⟩ <;>
      simp only [mongoc_stream_tls_openssl_bio_read, mongoc_stream_tls_openssl_bio_write,
        BIO_clear_retry_flags, BIO_set_retry_read, BIO_set_retry_write] <;>
      split <;> rfl

/-- C10: ctrl's return value is a function of the command code alone —
any two calls with the same cmd return the same value, whatever the
worlds, handles, numeric arguments and pointer arguments. -/
theorem ctrl_ret_depends_only_on_cmd (w₁ w₂ : World) (b₁ b₂ : BIOHandle)
    (cmd : Int) (num₁ num₂ : Int) (p₁ p₂ : Option Nat) :
    (mongoc_stream_tls_openssl_bio_ctrl w₁ b₁ cmd num₁ p₁).ret =
      (mongoc_stream_tls_openssl_bio_ctrl w₂ b₂ cmd num₂ p₂).ret := by
  unfold mongoc_stream_tls_openssl_bio_ctrl
  split <;> rfl

end MongocOpensslShim
